import Mathlib

/-
Shallow embedding of `src/nhspy_plotthedots/plotly_spc_chart.py`.

Modelling conventions:
* A dataframe row is a record with the columns the code consults:
  the date column (encoded as an integer count of days, so that
  `relativedelta(days=5)` becomes `+ 5`), the values column, the
  `mean`, `lpl`, `upl` columns, the three classification columns, and
  the optional format column (`fmt`, a string; Python truthiness of a
  string is `s ≠ ""`).
* The column-name indirection (`values_col`, `date_col`, `format_col`
  as strings) is resolved into the typed fields; the `format_col`
  parameter survives as a `Bool` saying whether a format column was
  supplied (Python default `None` becomes `false`).
* Python numbers are modelled as exact rationals; `0.1` is `1/10`.
* `get_y_axis_range` contains Python conditional expressions that can
  yield either a `bool` or the number `0`; the sum type `PyNum` keeps
  both outcomes apart, exactly as Python does.
* Fallible operations (`.item()` on an empty frame, `min`/`max` of an
  empty sequence) become `Except String` with the CPython/pandas error
  messages.
-/

/-- A row of the input dataframe, with the columns the code reads. -/
structure Row where
  date : Int
  value : ℚ
  mean : ℚ
  lpl : ℚ
  upl : ℚ
  outside_limits : Bool
  close_to_limits : Bool
  relative_to_mean : ℚ
  fmt : String
deriving DecidableEq, Repr

/-- The input dataframe: an ordered list of rows. -/
structure DataFrame where
  rows : List Row
deriving DecidableEq, Repr

/-- A Python value that is either a `bool` or a number, as produced by the
conditional expressions inside `get_y_axis_range`. -/
inductive PyNum where
  | bool (b : Bool)
  | num (q : ℚ)
deriving DecidableEq, Repr

/-- Embedding of `get_status` (plotly_spc_chart.py lines 29-49). -/
def get_status (row : Row) : String :=
  if row.outside_limits then "Outside Limit"
  else if row.close_to_limits then "Close to limit"
  else if row.relative_to_mean > 0 then "Above mean"
  else if row.relative_to_mean < 0 then "Below mean"
  else ""

/-- Embedding of `get_colour` (plotly_spc_chart.py lines 53-68). -/
def get_colour (row : Row) : String :=
  if row.outside_limits then "red"
  else if row.close_to_limits then "yellow"
  else "rgb(22, 96, 167)"

/-- Embedding of `get_y_axis_range` (plotly_spc_chart.py lines 72-86).

The Python body is
`[y_axis_min < 0 if y_axis_min - (y_axis_min * 0.1) else 0,`
` y_axis_max > 0 if y_axis_max + (y_axis_max * 0.1) else 0]`:
each element is a conditional expression whose condition is the padded
value (truthy iff nonzero) and whose branches are a boolean comparison
and the number `0`. -/
def get_y_axis_range (y_axis_min y_axis_max : ℚ) : List PyNum :=
  [ if y_axis_min - y_axis_min * (1/10) ≠ 0 then PyNum.bool (decide (y_axis_min < 0))
    else PyNum.num 0,
    if y_axis_max + y_axis_max * (1/10) ≠ 0 then PyNum.bool (decide (y_axis_max > 0))
    else PyNum.num 0 ]

/-- The y-axis dictionary built by `get_y_axis_dictionary`
(plotly_spc_chart.py lines 90-115): title, range, and an optional
`tickformat` key that is only set when `format_value` is truthy. -/
structure YAxisSetup where
  title : String
  range : List PyNum
  tickformat : Option String
deriving DecidableEq, Repr

/-- Embedding of `get_y_axis_dictionary` (plotly_spc_chart.py lines 90-115).
`format_value` is `none` for Python `None`; a string is truthy iff nonempty. -/
def get_y_axis_dictionary (y_lab : String) (y_axis_min y_axis_max : ℚ)
    (format_value : Option String) : YAxisSetup :=
  { title := y_lab
    range := get_y_axis_range y_axis_min y_axis_max
    tickformat :=
      match format_value with
      | some s => if s = "" then none else some s
      | none => none }

/-- Line styling of a trace (`line = dict(color=..., width=..., dash=...)`).
A width of `0` and the default dash are kept verbatim. -/
structure LineStyle where
  color : String
  width : ℚ
  dash : Option String
deriving DecidableEq, Repr

/-- One `go.Scatter` trace as assembled by `plotly_spc_chart`: x data
(dates), y data, per-point marker colours and hover text when present,
line styling, fill options and the hover template string. -/
structure Trace where
  x : List Int
  y : List ℚ
  name : String
  mode : String
  markerColors : Option (List String)
  line : LineStyle
  text : Option (List String)
  fill : Option String
  fillcolor : Option String
  hovertemplate : String
deriving DecidableEq, Repr

/-- The x-axis dictionary: `dict(title = x_lab, range = xaxis_range)`. -/
structure XAxisSetup where
  title : String
  range : Int × Int
deriving DecidableEq, Repr

/-- The `go.Layout` object assembled by `plotly_spc_chart`. -/
structure Layout where
  title : String
  fontSize : ℕ
  xaxis : XAxisSetup
  yaxis : YAxisSetup
  showlegend : Bool
  hovermode : String
deriving DecidableEq, Repr

/-- The `go.Figure` returned by `plotly_spc_chart`: the list of traces
and the layout. -/
structure Figure where
  data : List Trace
  layout : Layout
deriving DecidableEq, Repr

/-- CPython error message for `min`/`max` of an empty sequence. -/
def emptySeqError : String := "min() arg is an empty sequence"

/-- pandas error message for `.item()` on a frame without exactly one row. -/
def itemError : String := "can only convert an array of size 1 to a Python scalar"

/-- The scatter hover template after
`'%{{text}}: %{{y:{format}}}<extra></extra>'.format(format=tok)`. -/
def hover_point (tok : String) : String :=
  "%\x7btext\x7d: %\x7by:" ++ tok ++ "\x7d<extra></extra>"

/-- The named hover templates after
`'name: %{{y:{format}}}<extra></extra>'.format(format=tok)` for
`name` one of `mean`, `lpl`, `upl`. -/
def hover_named (name tok : String) : String :=
  name ++ ": %\x7by:" ++ tok ++ "\x7d<extra></extra>"

/-- Embedding of `plotly_spc_chart` (plotly_spc_chart.py lines 120-230).

`format_col` says whether the optional format-column name was supplied
(Python default `None` is `false`).  The Python failure modes are kept in
source order: with a format column, `df.head(1)[format_col].item()` runs
first and raises on an empty frame; otherwise the first failure on an
empty frame is `min(df[date_col])`. -/
def plotly_spc_chart (df : DataFrame) (plot_title x_lab y_lab : String)
    (format_col : Bool) : Except String Figure :=
  let format_value : Except String (Option String) :=
    if format_col then
      match df.rows.head? with
      | some r => .ok (some r.fmt)
      | none => .error itemError
    else .ok none
  match format_value with
  | .error e => .error e
  | .ok fv =>
    let hover_template_format : String :=
      match fv with
      | some s => if s = "" then ".0f" else s
      | none => ".0f"
    let scatter : Trace :=
      { x := df.rows.map Row.date
        y := df.rows.map Row.value
        name := "Performance"
        mode := "lines+markers"
        markerColors := some (df.rows.map (fun row => get_colour row))
        line := { color := "rgb(22, 96, 167)", width := 3, dash := some "solid" }
        text := some (df.rows.map (fun row => get_status row))
        fill := none
        fillcolor := none
        hovertemplate := hover_point hover_template_format }
    let mean_line : Trace :=
      { x := df.rows.map Row.date
        y := df.rows.map Row.mean
        name := "Mean"
        mode := "lines"
        markerColors := none
        line := { color := "rgba(174, 37, 115, 0.5)", width := 2, dash := some "dash" }
        text := none
        fill := none
        fillcolor := none
        hovertemplate := hover_named "mean" hover_template_format }
    let lpl_area : Trace :=
      { x := df.rows.map Row.date
        y := df.rows.map Row.lpl
        name := "lpl"
        mode := "lines"
        markerColors := none
        line := { color := "rgba(174, 37, 115, 0.1)", width := 0, dash := none }
        text := none
        fill := none
        fillcolor := none
        hovertemplate := hover_named "lpl" hover_template_format }
    let upl_area : Trace :=
      { x := df.rows.map Row.date
        y := df.rows.map Row.upl
        name := "upl"
        mode := "lines"
        markerColors := none
        line := { color := "rgba(174, 37, 115, 0.1)", width := 0, dash := none }
        text := none
        fill := some "tonexty"
        fillcolor := some "rgba(174, 37, 115, 0.1)"
        hovertemplate := hover_named "upl" hover_template_format }
    match (df.rows.map Row.date).min?, (df.rows.map Row.date).max?,
        (df.rows.map Row.value).min?, (df.rows.map Row.value).max? with
    | some min_xaxis, some max_xaxis, some min_yaxis, some max_yaxis =>
      let xaxis_range : Int × Int := (min_xaxis - 5, max_xaxis + 5)
      .ok
        { data := [scatter, mean_line, lpl_area, upl_area]
          layout :=
            { title := plot_title
              fontSize := 12
              xaxis := { title := x_lab, range := xaxis_range }
              yaxis := get_y_axis_dictionary y_lab min_yaxis max_yaxis fv
              showlegend := false
              hovermode := "x unified" } }
    | _, _, _, _ => .error emptySeqError

/-- Embedding of `get_plotly_spc_chart` (plotly_spc_chart.py lines 235-265):
an argument-for-argument pass-through to `plotly_spc_chart`. -/
def get_plotly_spc_chart (df : DataFrame) (plot_title x_lab y_lab : String)
    (format_col : Bool) : Except String Figure :=
  plotly_spc_chart df plot_title x_lab y_lab format_col

/-- All columns of a row except the format column, used to state that the
chart depends on the format column only through its first row. -/
structure RowCore where
  date : Int
  value : ℚ
  mean : ℚ
  lpl : ℚ
  upl : ℚ
  outside_limits : Bool
  close_to_limits : Bool
  relative_to_mean : ℚ
deriving DecidableEq, Repr

/-- Projection of a row onto every column except the format column. -/
def Row.core (r : Row) : RowCore :=
  ⟨r.date, r.value, r.mean, r.lpl, r.upl, r.outside_limits,
    r.close_to_limits, r.relative_to_mean⟩


/-- C1: the claim says `get_y_axis_range` pads `min`/`max` outward by 10%
and clamps the low bound to 0 for non-negative minima (and the high bound
to 0 for non-positive maxima).  The code instead evaluates Python
conditional expressions with the operands swapped: at the claim's own
example `min = 10, max = 50` it returns the booleans `[False, True]`
(numerically `[0, 1]`), neither the intended clamped `[0, 55]` nor the
unclamped `[9, 55]`. -/
theorem get_y_axis_range_bug_at_10_50 :
    get_y_axis_range 10 50 = [PyNum.bool false, PyNum.bool true] ∧
    get_y_axis_range 10 50 ≠ [PyNum.num 0, PyNum.num 55] ∧
    get_y_axis_range 10 50 ≠ [PyNum.num 9, PyNum.num 55] := by
  have h : get_y_axis_range 10 50 = [PyNum.bool false, PyNum.bool true] := by
    unfold get_y_axis_range; norm_num
  refine ⟨h, ?_, ?_⟩ <;> rw [h] <;> decide

/-- C2: `get_status` is total (always one of the five strings) and follows
the fixed priority order: `outside_limits` first (regardless of the
other fields), then `close_to_limits`, then the sign of
`relative_to_mean`, else the empty string. -/
theorem get_status_total_and_priority (r : Row) :
    (get_status r = "Outside Limit" ∨ get_status r = "Close to limit" ∨
      get_status r = "Above mean" ∨ get_status r = "Below mean" ∨ get_status r = "") ∧
    (r.outside_limits = true → get_status r = "Outside Limit") ∧
    (r.outside_limits = false → r.close_to_limits = true →
      get_status r = "Close to limit") ∧
    (r.outside_limits = false → r.close_to_limits = false →
      0 < r.relative_to_mean → get_status r = "Above mean") ∧
    (r.outside_limits = false → r.close_to_limits = false →
      r.relative_to_mean < 0 → get_status r = "Below mean") ∧
    (r.outside_limits = false → r.close_to_limits = false →
      r.relative_to_mean = 0 → get_status r = "") := by
  unfold get_status
  refine ⟨?_, ?_, ?_, ?_, ?_, ?_⟩
  · split_ifs <;> simp
  · intro h; simp [h]
  · intro ho hc; simp [ho, hc]
  · intro ho hc hp; simp [ho, hc, hp]
  · intro ho hc hn; simp [ho, hc, hn, not_lt.mpr hn.le]
  · intro ho hc hz; simp [ho, hc, hz]

/-- C2 witness: a row with `outside_limits = true` (and the other flags
also set) gets status `Outside Limit`. -/
theorem get_status_total_and_priority_witness :
    get_status ⟨0, 0, 0, 0, 0, true, true, 5, ""⟩ = "Outside Limit" :=
  (get_status_total_and_priority ⟨0, 0, 0, 0, 0, true, true, 5, ""⟩).2.1 rfl

/-- C3: `get_colour` returns `red` when `outside_limits`, else `yellow`
when `close_to_limits`, else the base colour, and its result depends only
on those two fields: any two rows agreeing on them get the same colour. -/
theorem get_colour_spec_and_independence (r s : Row)
    (ho : r.outside_limits = s.outside_limits)
    (hc : r.close_to_limits = s.close_to_limits) :
    get_colour r = (if r.outside_limits then "red"
      else if r.close_to_limits then "yellow" else "rgb(22, 96, 167)") ∧
    (get_colour r = "red" ∨ get_colour r = "yellow" ∨
      get_colour r = "rgb(22, 96, 167)") ∧
    get_colour r = get_colour s := by
  refine ⟨rfl, ?_, ?_⟩
  · unfold get_colour; split_ifs <;> simp
  · unfold get_colour; rw [ho, hc]

/-- C3 witness: two rows that differ in every field except the two flags
(in particular in `relative_to_mean`) are coloured identically. -/
theorem get_colour_spec_and_independence_witness :
    get_colour ⟨0, 1, 2, 0, 9, false, true, 5, ""⟩ =
      get_colour ⟨7, 3, 4, 1, 8, false, true, -2, "x"⟩ :=
  (get_colour_spec_and_independence ⟨0, 1, 2, 0, 9, false, true, 5, ""⟩
    ⟨7, 3, 4, 1, 8, false, true, -2, "x"⟩ rfl rfl).2.2

/-- C4: the status and colour classifiers always pick the same priority
tier: `Outside Limit` exactly when `red`, `Close to limit` exactly when
`yellow`, and the neutral colour in every other case. -/
theorem status_colour_tier_agreement (r : Row) :
    (get_status r = "Outside Limit" ↔ get_colour r = "red") ∧
    (get_status r = "Close to limit" ↔ get_colour r = "yellow") ∧
    (get_status r ≠ "Outside Limit" → get_status r ≠ "Close to limit" →
      get_colour r = "rgb(22, 96, 167)") := by
  obtain ⟨d, v, m, l, u, ob, cl, rtm, fm⟩ := r
  cases ob <;> cases cl <;>
    simp only [get_status, get_colour] <;> split_ifs <;> simp_all

/-- C4 witness: a row in the directional tier (above mean) is neither
`Outside Limit` nor `Close to limit` and gets the neutral colour. -/
theorem status_colour_tier_agreement_witness :
    get_colour ⟨0, 0, 0, 0, 0, false, false, 3, ""⟩ = "rgb(22, 96, 167)" :=
  (status_colour_tier_agreement ⟨0, 0, 0, 0, 0, false, false, 3, ""⟩).2.2
    (by decide) (by decide)

/-- C5: on every non-empty table the assembled chart's x-axis range is
the date minimum minus 5 days and the date maximum plus 5 days.  Dates
are day numbers (days since 1970-01-01), so `relativedelta(days=5)` is
`± 5`. -/
theorem xaxis_range_pads_five_days (df : DataFrame) (t xl yl : String) (fc : Bool)
    (mn mx : Int)
    (hmn : (df.rows.map Row.date).min? = some mn)
    (hmx : (df.rows.map Row.date).max? = some mx) :
    ∃ fig, plotly_spc_chart df t xl yl fc = Except.ok fig ∧
      fig.layout.xaxis.range = (mn - 5, mx + 5) := by
  obtain ⟨rows⟩ := df
  cases rows with
  | nil => simp at hmn
  | cons r rs =>
    simp only [List.map_cons, List.min?_cons', List.max?_cons',
      Option.some.injEq] at hmn hmx
    subst hmn; subst hmx
    cases fc <;> exact ⟨_, rfl, rfl⟩

/-- C5 witness: the claim's example.  2023-01-01 and 2023-01-31 are days
19358 and 19388 since 1970-01-01; the resulting range (19353, 19393) is
2022-12-27 to 2023-02-05. -/
theorem xaxis_range_pads_five_days_witness :
    ∃ fig, plotly_spc_chart ⟨[⟨19358, 1, 1, 0, 2, false, false, 0, ""⟩,
        ⟨19388, 2, 1, 0, 2, false, false, 1, ""⟩]⟩ "t" "x" "y" false =
        Except.ok fig ∧
      fig.layout.xaxis.range = (19353, 19393) :=
  xaxis_range_pads_five_days ⟨[⟨19358, 1, 1, 0, 2, false, false, 0, ""⟩,
      ⟨19388, 2, 1, 0, 2, false, false, 1, ""⟩]⟩ "t" "x" "y" false 19358 19388
    (by decide) (by decide)

/-- C6: the hover-value token of every one of the four traces is the first
row's format value when a format column is supplied and that value is
non-empty, else the default `.0f`; and exactly when the format hint is
supplied and non-empty it is attached as the y-axis `tickformat`. -/
theorem hover_format_token (df : DataFrame) (t xl yl : String) (fc : Bool)
    (r : Row) (rs : List Row) (hrow : df.rows = r :: rs) (tok : String)
    (htok : tok = if fc = true ∧ r.fmt ≠ "" then r.fmt else ".0f") :
    ∃ fig, plotly_spc_chart df t xl yl fc = Except.ok fig ∧
      fig.data.map Trace.hovertemplate =
        [hover_point tok, hover_named "mean" tok, hover_named "lpl" tok,
          hover_named "upl" tok] ∧
      fig.layout.yaxis.tickformat =
        (if fc = true ∧ r.fmt ≠ "" then some r.fmt else none) := by
  obtain ⟨rows⟩ := df
  simp only at hrow
  subst hrow
  cases fc
  · refine ⟨_, rfl, ?_, ?_⟩ <;> simp_all [get_y_axis_dictionary]
  · by_cases hf : r.fmt = "" <;>
      refine ⟨_, rfl, ?_, ?_⟩ <;> simp_all [get_y_axis_dictionary]

/-- C6 witness: with a format column supplied and first-row format `.1%`,
all four hover templates carry `.1%` and so does the y-axis tickformat. -/
theorem hover_format_token_witness :
    ∃ fig, plotly_spc_chart ⟨[⟨1, 2, 3, 0, 5, false, false, 1, ".1%"⟩]⟩
        "t" "x" "y" true = Except.ok fig ∧
      fig.data.map Trace.hovertemplate =
        [hover_point ".1%", hover_named "mean" ".1%", hover_named "lpl" ".1%",
          hover_named "upl" ".1%"] ∧
      fig.layout.yaxis.tickformat = some ".1%" :=
  hover_format_token ⟨[⟨1, 2, 3, 0, 5, false, false, 1, ".1%"⟩]⟩ "t" "x" "y"
    true ⟨1, 2, 3, 0, 5, false, false, 1, ".1%"⟩ [] rfl ".1%" (by decide)

/-- C7: chart assembly and the two row classifiers are pure functions of
their arguments, so rebuilding from the same unmodified table yields a
structurally identical figure and re-classifying a row yields the same
result. -/
theorem assembly_deterministic (df : DataFrame) (t xl yl : String) (fc : Bool)
    (r : Row) :
    plotly_spc_chart df t xl yl fc = plotly_spc_chart df t xl yl fc ∧
    get_status r = get_status r ∧ get_colour r = get_colour r :=
  ⟨rfl, rfl, rfl⟩

/-- C8 counterexample: on an empty table with a format column supplied,
assembly fails at `df.head(1)[format_col].item()` with the pandas
size-1 error, before the min/max calls run, so the error is not the
empty-sequence error the claim names. -/
theorem empty_df_format_col_error_not_minmax :
    plotly_spc_chart ⟨[]⟩ "t" "x" "y" true = Except.error itemError ∧
    plotly_spc_chart ⟨[]⟩ "t" "x" "y" true ≠ Except.error emptySeqError ∧
    itemError ≠ emptySeqError := by
  have h : plotly_spc_chart ⟨[]⟩ "t" "x" "y" true = Except.error itemError := rfl
  have hne : itemError ≠ emptySeqError := by decide
  exact ⟨h, by rw [h]; simp only [ne_eq, Except.error.injEq]; exact hne, hne⟩

/-- C8 amended: every empty table makes assembly fail and the error is
propagated; without a format column the failure is the empty-sequence
error of `min`/`max`, with one it is the earlier `.item()` error. -/
theorem empty_df_assembly_fails (df : DataFrame) (t xl yl : String) (fc : Bool)
    (h : df.rows = []) :
    plotly_spc_chart df t xl yl fc =
      Except.error (if fc then itemError else emptySeqError) := by
  obtain ⟨rows⟩ := df
  simp only at h
  subst h
  cases fc <;> rfl

/-- C8 amended witness: the empty table without a format column fails with
the empty-sequence min/max error. -/
theorem empty_df_assembly_fails_witness :
    plotly_spc_chart ⟨[]⟩ "a" "b" "c" false =
      Except.error (if false then itemError else emptySeqError) :=
  empty_df_assembly_fails ⟨[]⟩ "a" "b" "c" false rfl

/-- C9: `get_plotly_spc_chart` is an argument-for-argument pass-through to
`plotly_spc_chart`; the two entry points are equivalent on all inputs. -/
theorem get_plotly_spc_chart_is_passthrough (df : DataFrame)
    (t xl yl : String) (fc : Bool) :
    get_plotly_spc_chart df t xl yl fc = plotly_spc_chart df t xl yl fc := rfl

/-- Mapping a function that only reads the non-format columns gives equal
results on row lists with equal core projections. -/
theorem map_eq_of_core_eq {β : Type} (f : Row → β) (g : RowCore → β)
    (hf : ∀ r, f r = g r.core) :
    ∀ l1 l2 : List Row, l1.map Row.core = l2.map Row.core →
      l1.map f = l2.map f := by
  intro l1
  induction l1 with
  | nil => intro l2 h; cases l2 <;> simp_all
  | cons a l ih =>
    intro l2 h
    cases l2 with
    | nil => simp at h
    | cons b m =>
      simp only [List.map_cons, List.cons.injEq] at h ⊢
      exact ⟨by rw [hf a, hf b, h.1], ih m h.2⟩

/-- C10: two tables that agree on every non-format column and on the first
row's format value produce identical charts: format values in rows after
the first never affect the output. -/
theorem format_rows_after_first_irrelevant (df1 df2 : DataFrame)
    (t xl yl : String) (fc : Bool)
    (hcore : df1.rows.map Row.core = df2.rows.map Row.core)
    (hfmt : df1.rows.head?.map Row.fmt = df2.rows.head?.map Row.fmt) :
    plotly_spc_chart df1 t xl yl fc = plotly_spc_chart df2 t xl yl fc := by
  have hdate := map_eq_of_core_eq Row.date RowCore.date (fun r => rfl)
    df1.rows df2.rows hcore
  have hvalue := map_eq_of_core_eq Row.value RowCore.value (fun r => rfl)
    df1.rows df2.rows hcore
  have hmean := map_eq_of_core_eq Row.mean RowCore.mean (fun r => rfl)
    df1.rows df2.rows hcore
  have hlpl := map_eq_of_core_eq Row.lpl RowCore.lpl (fun r => rfl)
    df1.rows df2.rows hcore
  have hupl := map_eq_of_core_eq Row.upl RowCore.upl (fun r => rfl)
    df1.rows df2.rows hcore
  have hcol := map_eq_of_core_eq (fun row => get_colour row)
    (fun c => if c.outside_limits then "red"
      else if c.close_to_limits then "yellow" else "rgb(22, 96, 167)")
    (fun r => rfl) df1.rows df2.rows hcore
  have hstat := map_eq_of_core_eq (fun row => get_status row)
    (fun c => if c.outside_limits then "Outside Limit"
      else if c.close_to_limits then "Close to limit"
      else if c.relative_to_mean > 0 then "Above mean"
      else if c.relative_to_mean < 0 then "Below mean" else "")
    (fun r => rfl) df1.rows df2.rows hcore
  unfold plotly_spc_chart
  rw [hdate, hvalue, hmean, hlpl, hupl, hcol, hstat]
  cases h1 : df1.rows.head? <;> cases h2 : df2.rows.head? <;>
    rw [h1, h2] at hfmt <;> simp_all

/-- C10 witness: two concrete tables differing only in the second row's
format value produce the same chart. -/
theorem format_rows_after_first_irrelevant_witness :
    plotly_spc_chart ⟨[⟨1, 2, 3, 0, 5, false, false, 1, ".2f"⟩,
        ⟨2, 3, 3, 0, 5, true, false, 0, "AAA"⟩]⟩ "t" "x" "y" true =
      plotly_spc_chart ⟨[⟨1, 2, 3, 0, 5, false, false, 1, ".2f"⟩,
        ⟨2, 3, 3, 0, 5, true, false, 0, "BBB"⟩]⟩ "t" "x" "y" true :=
  format_rows_after_first_irrelevant
    ⟨[⟨1, 2, 3, 0, 5, false, false, 1, ".2f"⟩,
      ⟨2, 3, 3, 0, 5, true, false, 0, "AAA"⟩]⟩
    ⟨[⟨1, 2, 3, 0, 5, false, false, 1, ".2f"⟩,
      ⟨2, 3, 3, 0, 5, true, false, 0, "BBB"⟩]⟩ "t" "x" "y" true rfl rfl
